import Mathlib

/-!
Verification development for the accounting-document updater.

The Python modules under src/server/engine are shallowly embedded here:
Python str values become lists of characters, the drivers become pure
functions over explicit screen/oracle state, and the controller retry
loops become functions driven by a finite trace of driver-call results.
-/

namespace AccDoc

/-- Python str modelled as a list of characters. -/
abbrev Str := List Char

/-- Whitespace characters stripped by Python str.strip(). -/
def isWs (c : Char) : Bool := c = ' ' || c = '\t' || c = '\n' || c = '\r'

/-- Python str.lstrip(). -/
def lstrip (s : Str) : Str := s.dropWhile isWs

/-- Python str.rstrip(). -/
def rstrip (s : Str) : Str := (s.reverse.dropWhile isWs).reverse

/-- Python str.strip(). -/
def strip (s : Str) : Str := rstrip (lstrip s)

/-- Python str(n) for a non-negative int n. -/
def natStr (n : Nat) : Str := Nat.toDigits 10 n

/-- Scanner behind findall: walks the text one character at a time; a
positive skip counter means the scanner is inside a previous match and
must not look for a new one until the counter runs out. -/
def findallGo (p : Str) : Str → Nat → List Str
  | [], _ => []
  | _ :: rest, skip + 1 => findallGo p rest skip
  | c :: rest, 0 =>
      if p ≠ [] && decide (p <+: (c :: rest)) then
        p :: findallGo p rest (p.length - 1)
      else
        findallGo p rest 0

/-- Python re.findall(p, s) for a literal (digits-only) pattern p:
the list of non-overlapping leftmost matches, each equal to p itself. -/
def findall (p s : Str) : List Str := findallGo p s 0

/-- Scanner behind removeAll, same skip-counter discipline. -/
def removeAllGo (p : Str) : Str → Nat → Str
  | [], _ => []
  | _ :: rest, skip + 1 => removeAllGo p rest skip
  | c :: rest, 0 =>
      if p ≠ [] && decide (p <+: (c :: rest)) then
        removeAllGo p rest (p.length - 1)
      else
        c :: removeAllGo p rest 0

/-- Python re.sub(p, "", s) for a literal pattern p: removes the
non-overlapping leftmost occurrences of p from s. -/
def removeAll (p s : Str) : Str := removeAllGo p s 0

/-- fb03._remove_duplicates: the text-repair step.  The matches of a
literal pattern are all equal to the pattern, so the source condition
len(matches) >= 2 and matches[0] == matches[1] is the head comparison
of the first two matches. -/
def remove_duplicates (text caseId : Str) : Str :=
  match findall caseId text with
  | a :: b :: _ => if a = b then strip (removeAll caseId text) else text
  | _ => text

example : natStr 400081469 = "400081469".data := by decide
example : findall "12".data "112122".data = ["12".data, "12".data] := by decide
example : removeAll "12".data "112122".data = "12".data := by decide
example : remove_duplicates "112122".data "12".data = "12".data := by decide
example : remove_duplicates "abc".data "12".data = "abc".data := by decide
example : strip "  a b  ".data = "a b".data := by decide

/-- Every match reported by the scanner is the pattern itself. -/
theorem findallGo_mem (p : Str) :
    ∀ (s : Str) (k : Nat) (x : Str), x ∈ findallGo p s k → x = p := by
  intro s
  induction s with
  | nil => intro k x hx; simp [findallGo] at hx
  | cons c rest ih =>
      intro k x hx
      match k with
      | Nat.succ k' => exact ih k' x hx
      | 0 =>
          rw [findallGo] at hx
          by_cases hc : (p ≠ [] && decide (p <+: (c :: rest))) = true
          · rw [if_pos hc] at hx
            rcases List.mem_cons.mp hx with h | h
            · exact h
            · exact ih _ x h
          · rw [if_neg hc] at hx
            exact ih 0 x hx

/-- Every match reported by findall is the pattern itself. -/
theorem findall_mem (p s : Str) (x : Str) (hx : x ∈ findall p s) : x = p :=
  findallGo_mem p s 0 x hx

/-- A prefix is an infix. -/
theorem isInfix_of_isPrefix {p s : Str} (h : p <+: s) : p <:+: s := by
  obtain ⟨t, ht⟩ := h
  exact ⟨[], t, by simpa using ht⟩

/-- If the pattern occurs nowhere in the text, findall reports no match. -/
theorem findall_of_no_occurrence (p : Str) :
    ∀ s : Str, ¬ p <:+: s → findall p s = [] := by
  intro s
  induction s with
  | nil => intro _; simp [findall, findallGo]
  | cons c rest ih =>
      intro h
      have hpre : ¬ p <+: (c :: rest) := fun hp => h (isInfix_of_isPrefix hp)
      have hrest : ¬ p <:+: rest := fun hi => h (List.infix_cons hi)
      rw [findall, findallGo]
      rw [if_neg (by simp [hpre])]
      exact ih hrest

/-- If the pattern occurs nowhere in the text, removal is the identity. -/
theorem removeAll_of_no_occurrence (p : Str) :
    ∀ s : Str, ¬ p <:+: s → removeAll p s = s := by
  intro s
  induction s with
  | nil => intro _; simp [removeAll, removeAllGo]
  | cons c rest ih =>
      intro h
      have hpre : ¬ p <+: (c :: rest) := fun hp => h (isInfix_of_isPrefix hp)
      have hrest : ¬ p <:+: rest := fun hi => h (List.infix_cons hi)
      rw [removeAll, removeAllGo]
      rw [if_neg (by simp [hpre])]
      rw [removeAll] at ih
      rw [ih hrest]

/-- If the pattern occurs nowhere in the text, the text-repair step
leaves the text untouched. -/
theorem remove_duplicates_of_no_occurrence (text p : Str) (h : ¬ p <:+: text) :
    remove_duplicates text p = text := by
  rw [remove_duplicates, findall_of_no_occurrence p text h]

/-- Claim C4 (counterexample): the text "112122" contains exactly two
adjacent identical occurrences of the case id "12" (at positions 1 and 3,
the second starting right where the first ends), yet the text-repair step
returns "12", which still contains one occurrence of the case id — not
zero as the claim states: removing the two non-overlapping matches
juxtaposes the leftover characters "1" and "2" into a fresh occurrence. -/
theorem C4_counterexample :
    ("112122".data = "1".data ++ "12".data ++ "12".data ++ "2".data)
    ∧ ((List.range 5).filter (fun i => decide ("12".data <+: ("112122".data.drop i))) = [1, 3])
    ∧ (findall "12".data "112122".data).length = 2
    ∧ remove_duplicates "112122".data "12".data = "12".data
    ∧ ("12".data <:+: remove_duplicates "112122".data "12".data) := by
  decide

/-- Claim C4 (amended): whenever the scan finds at least two
(non-overlapping) occurrences of the case id — adjacent or not — the
text-repair step returns the text with all non-overlapping occurrences
removed and then trimmed, a result that can itself still contain the case
id when the removal juxtaposes leftover characters; with zero or one
occurrence the text is returned completely unchanged. -/
theorem C4_amended (t p : Str) :
    (2 ≤ (findall p t).length → remove_duplicates t p = strip (removeAll p t))
    ∧ ((findall p t).length ≤ 1 → remove_duplicates t p = t) := by
  constructor
  · intro h2
    rw [remove_duplicates]
    match hm : findall p t with
    | [] => rw [hm] at h2; simp at h2
    | [a] => rw [hm] at h2; simp at h2
    | a :: b :: l =>
        have ha : a = p := findall_mem p t a (by rw [hm]; exact List.mem_cons_self a _)
        have hb : b = p := findall_mem p t b (by rw [hm]; simp)
        subst ha
        subst hb
        simp
  · intro h1
    rw [remove_duplicates]
    match hm : findall p t with
    | [] => rfl
    | [a] => rfl
    | a :: b :: l => rw [hm] at h1; simp at h1

/-- Claim C4 (witness): the amended theorem applied to the concrete text
"400081469400081469" holding two adjacent copies of case id "400081469":
both copies are removed and nothing remains. -/
theorem C4_witness :
    remove_duplicates "400081469400081469".data "400081469".data
      = strip (removeAll "400081469".data "400081469400081469".data) :=
  (C4_amended "400081469400081469".data "400081469".data).1 (by decide)

/-- fb03.MAX_TEXT_FIELD_CHARS. -/
def MAX_TEXT_FIELD_CHARS : Nat := 50

/-- Result of the pure text-composition step of fb03._append_case_id:
the new text on success, or which typed exception was raised. -/
inductive TextResult
  | ok (s : Str)
  | caseIdContained
  | tooLong
deriving DecidableEq

/-- fb03._append_case_id, text level: raises CaseIdContainedWarning when
the decimal case id already occurs in the text; otherwise runs the
text-repair step, appends " D " and the case id to the trimmed text, and
raises DocumentProcessingError when the 50-character limit is exceeded. -/
def append_case_id_text (text : Str) (caseId : Nat) : TextResult :=
  if natStr caseId <:+: text then
    .caseIdContained
  else
    let compiled := remove_duplicates text (natStr caseId)
    let compiled2 := strip compiled ++ " D ".data ++ natStr caseId
    if compiled2.length ≤ MAX_TEXT_FIELD_CHARS then .ok compiled2 else .tooLong

example :
    append_case_id_text "RET711884319".data 400081469
      = .ok "RET711884319 D 400081469".data := by decide

/-- Claim C5 (counterexample): a 39-character text that does not contain
the case id 400081469 composes to 39 + 3 + 9 = 51 characters, so the
annotation step raises the length error instead of producing
"{trimmed original} D {case_id}" as the claim states. -/
theorem C5_counterexample :
    (¬ natStr 400081469 <:+: "XXXXXXXXXXXXXXXXXXXXXXXXXXXXXXXXXXXXXXX".data)
    ∧ append_case_id_text "XXXXXXXXXXXXXXXXXXXXXXXXXXXXXXXXXXXXXXX".data 400081469
        = .tooLong := by
  decide

/-- Claim C5 (amended): if the case id (as a decimal string) is not a
substring of the text and the composed string fits the 50-character
field, annotation produces exactly "{trimmed original} D {case_id}"; if
the case id is already a substring, the CaseIdContained warning is raised
and no new text is produced. -/
theorem C5_amended (text : Str) (caseId : Nat) :
    (¬ natStr caseId <:+: text →
      (strip text ++ " D ".data ++ natStr caseId).length ≤ MAX_TEXT_FIELD_CHARS →
      append_case_id_text text caseId = .ok (strip text ++ " D ".data ++ natStr caseId))
    ∧ (natStr caseId <:+: text → append_case_id_text text caseId = .caseIdContained) := by
  constructor
  · intro hni hlen
    rw [append_case_id_text]
    rw [if_neg hni]
    simp only [remove_duplicates_of_no_occurrence text (natStr caseId) hni]
    rw [if_pos hlen]
  · intro hin
    rw [append_case_id_text, if_pos hin]

/-- Claim C5 (witness): the amended theorem at the spec scenario — text
"RET711884319" and case id 400081469 yield "RET711884319 D 400081469". -/
theorem C5_witness :
    append_case_id_text "RET711884319".data 400081469
      = .ok "RET711884319 D 400081469".data := by
  rw [(C5_amended "RET711884319".data 400081469).1 (by decide) (by decide)]
  decide

/-- Message of the length error raised by fb03._append_case_id. -/
def tooLongMsg : Str := "Text value exceeds 50 chars length!".data

/-- Benign save-status notice dismissed by fb03._save_changes. -/
def benignSaveMsg : Str := "Net due date on * is in the past".data

/-- Error message for a document already cleared by the remote system. -/
def clearedMsg : Str :=
  "The document is already cleared and the text cannot be changed!".data

/-- Screen/oracle state consumed by one fb03.append_case_id call:
the current document text plus the status and dialog feedback the remote
transaction will give at each step of the sequence. -/
structure Fb03Screen where
  docText : Str
  searchNotFound : Bool
  alertAfterSearch : Bool
  popupAfterCompose : Bool
  textFieldBroken : Bool
  clearedDoc : Bool
  saveAlert : Option Str
deriving DecidableEq

/-- Remote-UI steps performed by fb03.append_case_id, in order. -/
inductive Fb03Action
  | setSearch
  | openParams
  | backToInitial
  | enterEditMode
  | writeText (s : Str)
  | saveDoc
deriving DecidableEq

/-- Outcome of one fb03.append_case_id call. -/
inductive Fb03Result
  | ok
  | containedWarning
  | docError (msg : Str)
deriving DecidableEq

/-- fb03.append_case_id, driver level: returns the raised outcome, the
list of remote-UI steps performed, and the document text afterwards.
Mirrors the source order: search criteria, alert check, open line item,
compose the new text (fb03._append_case_id), popup check, toggle edit
mode, write, save. -/
def append_case_id (scr : Fb03Screen) (caseId : Nat) :
    Fb03Result × List Fb03Action × Str :=
  if scr.searchNotFound then
    (.docError "does not exist".data, [.setSearch], scr.docText)
  else if scr.alertAfterSearch then
    (.docError "alert".data, [.setSearch], scr.docText)
  else
    match append_case_id_text scr.docText caseId with
    | .caseIdContained =>
        (.containedWarning, [.setSearch, .openParams, .backToInitial], scr.docText)
    | .tooLong =>
        (.docError tooLongMsg, [.setSearch, .openParams], scr.docText)
    | .ok newText =>
        if scr.popupAfterCompose then
          (.docError "Unable to edit the document!".data,
            [.setSearch, .openParams], scr.docText)
        else if scr.textFieldBroken then
          (.docError (if scr.clearedDoc then clearedMsg else "attribute error".data),
            [.setSearch, .openParams, .enterEditMode, .writeText newText,
              .backToInitial], scr.docText)
        else
          match scr.saveAlert with
          | some m =>
              if benignSaveMsg <:+: m then
                (.ok, [.setSearch, .openParams, .enterEditMode, .writeText newText,
                  .saveDoc], newText)
              else
                (.docError "Unable to save document changes!".data,
                  [.setSearch, .openParams, .enterEditMode, .writeText newText,
                    .saveDoc], scr.docText)
          | none =>
              (.ok, [.setSearch, .openParams, .enterEditMode, .writeText newText,
                .saveDoc], newText)

/-- If the case id is absent from the text but the composed string
overflows the field, the pure composition step raises the length error. -/
theorem append_case_id_text_tooLong (text : Str) (caseId : Nat)
    (hni : ¬ natStr caseId <:+: text)
    (hlen : MAX_TEXT_FIELD_CHARS < (strip text ++ " D ".data ++ natStr caseId).length) :
    append_case_id_text text caseId = .tooLong := by
  rw [append_case_id_text, if_neg hni]
  simp only [remove_duplicates_of_no_occurrence text (natStr caseId) hni]
  have hlen2 := hlen
  rw [show " D ".data = [' ', 'D', ' '] from rfl] at hlen2
  rw [if_neg (by omega)]

/-- Claim C6: when the composed annotation of a document text and case id
exceeds the 50-character field limit (and the search phase itself is
clean), the annotation driver raises the length DocumentProcessingError
after opening the line item but before toggling edit mode: the performed
remote-UI steps are exactly search entry and line-item opening — no edit
mode, no write — and the document text is unchanged. -/
theorem C6_no_write_on_overflow (scr : Fb03Screen) (caseId : Nat)
    (h1 : ¬ natStr caseId <:+: scr.docText)
    (h2 : MAX_TEXT_FIELD_CHARS < (strip scr.docText ++ " D ".data ++ natStr caseId).length)
    (h3 : scr.searchNotFound = false)
    (h4 : scr.alertAfterSearch = false) :
    append_case_id scr caseId
      = (.docError tooLongMsg, [.setSearch, .openParams], scr.docText)
    ∧ Fb03Action.enterEditMode ∉ [Fb03Action.setSearch, Fb03Action.openParams]
    ∧ ∀ s : Str, Fb03Action.writeText s ∉ [Fb03Action.setSearch, Fb03Action.openParams] := by
  refine ⟨?_, by simp, by simp⟩
  rw [append_case_id, h3, h4]
  simp only [Bool.false_eq_true, if_false]
  rw [append_case_id_text_tooLong scr.docText caseId h1 h2]

/-- Claim C6 (witness): a 39-character text with case id 400081469
(composing to 51 characters) on a clean screen: the driver raises the
length error, performs no edit-mode or write step, text unchanged. -/
theorem C6_witness :
    append_case_id
      ⟨"XXXXXXXXXXXXXXXXXXXXXXXXXXXXXXXXXXXXXXX".data,
        false, false, false, false, false, none⟩ 400081469
      = (.docError tooLongMsg, [.setSearch, .openParams],
          "XXXXXXXXXXXXXXXXXXXXXXXXXXXXXXXXXXXXXXX".data) :=
  (C6_no_write_on_overflow _ 400081469 (by decide) (by decide) rfl rfl).1

/-- dropWhile never lengthens a list. -/
theorem length_dropWhile_le (p : Char → Bool) :
    ∀ l : Str, (l.dropWhile p).length ≤ l.length := by
  intro l
  induction l with
  | nil => simp
  | cons a l ih =>
      rw [List.dropWhile_cons]
      by_cases h : p a = true
      · rw [if_pos h]; simp; omega
      · rw [if_neg h]

/-- A dropWhile that keeps the length keeps the list. -/
theorem dropWhile_eq_self_of_length (p : Char → Bool) :
    ∀ l : Str, (l.dropWhile p).length = l.length → l.dropWhile p = l := by
  intro l
  induction l with
  | nil => simp
  | cons a l ih =>
      intro hlen
      rw [List.dropWhile_cons] at hlen ⊢
      by_cases h : p a = true
      · rw [if_pos h] at hlen
        have := length_dropWhile_le p l
        simp at hlen
        omega
      · rw [if_neg h]

/-- rstrip never lengthens a list. -/
theorem length_rstrip_le (s : Str) : (rstrip s).length ≤ s.length := by
  rw [rstrip, List.length_reverse]
  have h := length_dropWhile_le isWs s.reverse
  rw [List.length_reverse] at h
  exact h

/-- A string fixed by strip is fixed by lstrip. -/
theorem lstrip_eq_self_of_strip {m : Str} (h : strip m = m) : lstrip m = m := by
  have h1 : m.length ≤ (lstrip m).length := by
    conv_lhs => rw [← h]
    exact length_rstrip_le (lstrip m)
  have h2 := length_dropWhile_le isWs m
  exact dropWhile_eq_self_of_length isWs m (le_antisymm h2 h1)

/-- The head of a nonempty lstrip-fixed string is not whitespace. -/
theorem head_not_ws {c : Char} {m : Str} (h : lstrip (c :: m) = c :: m) :
    isWs c = false := by
  by_cases hc : isWs c = true
  · rw [lstrip, List.dropWhile_cons, if_pos hc] at h
    have hlen := congrArg List.length h
    have hle := length_dropWhile_le isWs m
    simp at hlen
    omega
  · revert hc; cases isWs c <;> simp

/-- The text appended to a skipped record's outcome message. -/
def skippedTail : Str := " Document skipped.".data

/-- Appending the skip notice to a nonempty strip-fixed message and then
stripping leaves the message text intact as a prefix. -/
theorem strip_append_skipped {m : Str} (hm : strip m = m) (hne : m ≠ []) :
    strip (m ++ skippedTail) = m ++ skippedTail := by
  have hl : lstrip m = m := lstrip_eq_self_of_strip hm
  obtain ⟨c, m', rfl⟩ : ∃ c m', m = c :: m' := by
    match m with
    | [] => exact absurd rfl hne
    | c :: m' => exact ⟨c, m', rfl⟩
  have hc : isWs c = false := head_not_ws hl
  have hrev : skippedTail.reverse = '.' :: "deppiks tnemucoD ".data := by decide
  have hdw : ((c :: m') ++ skippedTail).reverse.dropWhile isWs
      = ((c :: m') ++ skippedTail).reverse := by
    rw [List.reverse_append, hrev, List.cons_append, List.dropWhile_cons,
      if_neg (by decide)]
  have hback : rstrip ((c :: m') ++ skippedTail) = (c :: m') ++ skippedTail := by
    rw [rstrip, hdw, List.reverse_reverse]
  have hfront : lstrip ((c :: m') ++ skippedTail) = (c :: m') ++ skippedTail := by
    rw [lstrip, List.cons_append, List.dropWhile_cons, if_neg (by simp [hc])]
  rw [strip, hfront, hback]

/-- One input row as the annotation stage sees it after credit-note
resolution: document number, the order flag computed from the "501"
numbering prefix, the resolved credit note (if any), and the outcome
message accumulated so far. -/
structure DocRecord where
  docNum : Nat
  isOrder : Bool
  creditNote : Option Nat
  message : Str
deriving DecidableEq

/-- What the annotation stage does with one record: invoke the fb03
driver on a chosen document identifier, or skip the record. -/
inductive UpdateChoice
  | callDriver (docNum : Nat)
  | skip (newMsg : Str)
deriving DecidableEq

/-- controller.update_accounting_documents, per-record identifier
selection (the if/elif/else at the top of the loop body): a non-order row
uses its document number, an order row with a resolved credit note uses
that number, and an order row without one is skipped with the notice
appended to its outcome message and the result stripped. -/
def choose_update_target (r : DocRecord) : UpdateChoice :=
  if r.isOrder = false then .callDriver r.docNum
  else
    match r.creditNote with
    | some cn => .callDriver cn
    | none => .skip (strip (r.message ++ skippedTail))

/-- Claim C8: the identifier fed to the annotation driver is the document
number for a non-order record and the resolved credit-note number for an
order record that has one; an order record with no resolved credit note
is not fed to the driver at all and gets " Document skipped." appended to
its outcome message (then stripped), which leaves any earlier nonempty,
already-stripped warning text intact as a prefix. -/
theorem C8_identifier_choice (r : DocRecord) :
    (r.isOrder = false → choose_update_target r = .callDriver r.docNum)
    ∧ (∀ cn : Nat, r.isOrder = true → r.creditNote = some cn →
        choose_update_target r = .callDriver cn)
    ∧ (r.isOrder = true → r.creditNote = none →
        choose_update_target r = .skip (strip (r.message ++ skippedTail))
        ∧ (strip r.message = r.message → r.message ≠ [] →
            choose_update_target r = .skip (r.message ++ skippedTail))) := by
  refine ⟨?_, ?_, ?_⟩
  · intro h; rw [choose_update_target, if_pos h]
  · intro cn ho hc
    rw [choose_update_target, if_neg (by simp [ho]), hc]
  · intro ho hc
    constructor
    · rw [choose_update_target, if_neg (by simp [ho]), hc]
    · intro hs hn
      rw [choose_update_target, if_neg (by simp [ho]), hc,
        strip_append_skipped hs hn]

/-- Claim C8 (witness): the spec scenario — order 5012233445 with no
resolved credit note and earlier outcome message "w" is skipped and its
message becomes "w Document skipped.". -/
theorem C8_witness :
    choose_update_target ⟨5012233445, true, none, "w".data⟩
      = .skip "w Document skipped.".data := by
  have h := ((C8_identifier_choice ⟨5012233445, true, none, "w".data⟩).2.2
    rfl rfl).2 (by decide) (by decide)
  rw [h]
  decide

/-- controller.MAX_RECOVERY_ATTEMPTS. -/
def MAX_RECOVERY_ATTEMPTS : Nat := 3

/-- Recovery steps the controller performs on a lost connection. -/
inductive StageAct
  | connectSap
  | startFb03
  | startQm02
  | startVa03
deriving DecidableEq

/-- Result of one qm02.complete_notification call, by the except clauses
of the controller loop that catch it. -/
inductive Qm02CallResult
  | success
  | connLost
  | completionError (msg : Str)
  | completionWarning (msg : Str)
  | otherError (msg : Str)
deriving DecidableEq

/-- How a controller retry loop ends for one record: a break (with the
final value of the retry counter and the message to record), the while
condition turning false with the counter at the maximum, or the finite
trace of driver outcomes running out with the loop still going. -/
inductive LoopExit
  | exited (nAttempts : Nat) (msg : Str) (acts : List StageAct)
  | exhausted (nAttempts : Nat) (acts : List StageAct)
  | noTrace (acts : List StageAct)
deriving DecidableEq

/-- controller.close_service_notifications, inner while loop for one
record, driven by the finite trace of qm02.complete_notification
outcomes.  Faithful to the source: on SapConnectionLostError the
controller reconnects and calls fb03.start — it never restarts qm02 —
then increments the counter; warnings, errors and generic exceptions
record their text and break without touching the counter; success resets
the counter to zero and breaks. -/
def qm02_record_loop : Nat → List Qm02CallResult → List StageAct → LoopExit
  | n, [], acts =>
      if MAX_RECOVERY_ATTEMPTS ≤ n then .exhausted n acts else .noTrace acts
  | n, r :: rest, acts =>
      if MAX_RECOVERY_ATTEMPTS ≤ n then .exhausted n acts
      else
        match r with
        | .connLost =>
            qm02_record_loop (n + 1) rest (acts ++ [.connectSap, .startFb03])
        | .completionError m => .exited n m acts
        | .completionWarning m => .exited n m acts
        | .otherError m => .exited n m acts
        | .success => .exited 0 "Notification completed.".data acts

/-- Per-record outcome after the post-loop check. -/
inductive RecordExit
  | recorded (msg : Str) (acts : List StageAct)
  | fatalRuntime
  | noTrace
deriving DecidableEq

/-- close_service_notifications per record: run the retry loop, then the
post-loop n_attempts != 0 check, which raises RuntimeError. -/
def qm02_process_record (trace : List Qm02CallResult) : RecordExit :=
  match qm02_record_loop 0 trace [] with
  | .exited n msg acts => if n ≠ 0 then .fatalRuntime else .recorded msg acts
  | .exhausted _ _ => .fatalRuntime
  | .noTrace _ => .noTrace

/-- Claim C1: on the notification-closure stage, when
qm02.complete_notification raises SapConnectionLostError with the retry
counter below the maximum, the controller reconnects and then calls
fb03.start — the FB03 driver, not the QM02 driver it was running — before
retrying the record: the recovery steps for one connection loss followed
by success are exactly connect-then-start-FB03, and no QM02 start appears
among them.  This contradicts the spec, which requires re-starting the
same driver; the code is a copy-paste slip from the annotation stage. -/
theorem C1_restarts_fb03_not_qm02 :
    qm02_process_record [.connLost, .success]
      = .recorded "Notification completed.".data
          [StageAct.connectSap, StageAct.startFb03]
    ∧ StageAct.startQm02 ∉ [StageAct.connectSap, StageAct.startFb03] := by
  decide

/-- One input row as the notification-closure stage sees it. -/
structure NotifRecord where
  notification : Option Nat
  message : Str
deriving DecidableEq

/-- Outcome of the whole notification-closure stage. -/
inductive NotifStageResult
  | ok (recs : List NotifRecord)
  | typeErrorAbort
  | fatalRuntime
  | noTrace
deriving DecidableEq

/-- Row loop of controller.close_service_notifications: iterates every
row of the input (not only rows holding a notification) and converts the
Notification value with int() before any missing-value check, so a
missing value raises TypeError; a processed row gets the loop message
space-joined onto its outcome message. -/
def close_notifs_go (driver : Nat → List Qm02CallResult) :
    List NotifRecord → List NotifRecord → NotifStageResult
  | acc, [] => .ok acc.reverse
  | acc, r :: rest =>
      match r.notification with
      | none => .typeErrorAbort
      | some nid =>
          match qm02_process_record (driver nid) with
          | .recorded msg _ =>
              close_notifs_go driver
                ({ r with message := r.message ++ " ".data ++ msg } :: acc) rest
          | .fatalRuntime => .fatalRuntime
          | .noTrace => .noTrace

/-- controller.close_service_notifications: returns the input unchanged
when no row has a notification, otherwise runs the row loop. -/
def close_service_notifications (driver : Nat → List Qm02CallResult)
    (recs : List NotifRecord) : NotifStageResult :=
  if (recs.countP fun r => r.notification.isSome) = 0 then .ok recs
  else close_notifs_go driver [] recs

/-- The row loop aborts with TypeError as soon as it meets a row without
a notification, provided the driver succeeds on the rows before it. -/
theorem close_notifs_go_abort (driver : Nat → List Qm02CallResult)
    (hdrv : ∀ n, driver n = [.success]) :
    ∀ l acc : List NotifRecord, (∃ r ∈ l, r.notification = none) →
      close_notifs_go driver acc l = .typeErrorAbort := by
  intro l
  induction l with
  | nil => intro acc h; simp at h
  | cons r rest ih =>
      intro acc h
      match hr : r.notification with
      | none => simp only [close_notifs_go, hr]
      | some nid =>
          simp only [close_notifs_go, hr, hdrv nid]
          have hrest : ∃ x ∈ rest, x.notification = none := by
            obtain ⟨x, hx, hxn⟩ := h
            rcases List.mem_cons.mp hx with rfl | hx'
            · rw [hr] at hxn; cases hxn
            · exact ⟨x, hx', hxn⟩
          exact ih _ hrest

/-- Claim C10: a batch holding at least one row with a notification and
at least one row without one makes the notification-closure stage abort
with an unhandled TypeError when it reaches the row without a
notification (int() applied to the missing value), instead of skipping
that row — here under a driver that completes every present notification
successfully. -/
theorem C10_missing_notification_type_error (recs : List NotifRecord)
    (driver : Nat → List Qm02CallResult)
    (hsome : ∃ r ∈ recs, r.notification.isSome)
    (hnone : ∃ r ∈ recs, r.notification = none)
    (hdrv : ∀ n, driver n = [.success]) :
    close_service_notifications driver recs = .typeErrorAbort := by
  rw [close_service_notifications]
  have hcnt : (recs.countP fun r => r.notification.isSome) ≠ 0 := by
    intro h0
    obtain ⟨r, hr, hs⟩ := hsome
    have := (List.countP_eq_zero.mp h0) r hr
    simp [hs] at this
  rw [if_neg hcnt]
  exact close_notifs_go_abort driver hdrv recs [] hnone

/-- Claim C10 (witness): a two-row batch — one notification present, one
missing — with an always-successful driver aborts with TypeError. -/
theorem C10_witness :
    close_service_notifications (fun _ => [Qm02CallResult.success])
      [⟨some 30000263, "".data⟩, ⟨none, "".data⟩] = .typeErrorAbort :=
  C10_missing_notification_type_error _ _
    ⟨⟨some 30000263, "".data⟩, by simp, by simp⟩
    ⟨⟨none, "".data⟩, by simp, rfl⟩
    (fun _ => rfl)

/-- Result of one fb03.append_case_id call, by the except clauses of the
controller loop that catch it. -/
inductive Fb03CallResult
  | success
  | connLost
  | containedWarning (msg : Str)
  | docError (msg : Str)
deriving DecidableEq

/-- controller.update_accounting_documents, inner while loop for one
record.  On SapConnectionLostError the controller reconnects, restarts
FB03 and increments the counter; CaseIdContainedWarning and
DocumentProcessingError record their text and break without touching the
counter; success records "Document updated.", resets the counter to zero
and breaks. -/
def fb03_record_loop : Nat → List Fb03CallResult → List StageAct → LoopExit
  | n, [], acts =>
      if MAX_RECOVERY_ATTEMPTS ≤ n then .exhausted n acts else .noTrace acts
  | n, r :: rest, acts =>
      if MAX_RECOVERY_ATTEMPTS ≤ n then .exhausted n acts
      else
        match r with
        | .connLost =>
            fb03_record_loop (n + 1) rest (acts ++ [.connectSap, .startFb03])
        | .containedWarning m => .exited n m acts
        | .docError m => .exited n m acts
        | .success => .exited 0 "Document updated.".data acts

/-- update_accounting_documents per record: run the retry loop, then the
post-loop n_attempts != 0 check, which raises RuntimeError. -/
def fb03_process_record (trace : List Fb03CallResult) : RecordExit :=
  match fb03_record_loop 0 trace [] with
  | .exited n msg acts => if n ≠ 0 then .fatalRuntime else .recorded msg acts
  | .exhausted _ _ => .fatalRuntime
  | .noTrace _ => .noTrace

/-- Claim C2 (counterexample): one ConnectionLost retry followed by a
business warning on the same record does not continue to the next record
with the warning recorded — the counter was not reset by the warning, so
the post-loop check raises RuntimeError and the whole run aborts. -/
theorem C2_counterexample :
    fb03_process_record [.connLost, .containedWarning "w".data]
      = .fatalRuntime := by
  decide

/-- Recovery steps accumulated by k connection-loss retries of the
annotation loop. -/
def recoveryActsFb03 : Nat → List StageAct
  | 0 => []
  | k + 1 => [StageAct.connectSap, StageAct.startFb03] ++ recoveryActsFb03 k

/-- With the counter already at the maximum the annotation retry loop
performs no further driver call. -/
theorem fb03_record_loop_exhausted (n : Nat) (hn : MAX_RECOVERY_ATTEMPTS ≤ n) :
    ∀ (t : List Fb03CallResult) (acts : List StageAct),
      fb03_record_loop n t acts = .exhausted n acts := by
  intro t acts
  cases t with
  | nil => simp only [fb03_record_loop]; rw [if_pos hn]
  | cons r rest => simp only [fb03_record_loop]; rw [if_pos hn]

/-- Claim C2 (amended): in the annotation retry loop the counter resets
to zero only on success; a business Warning or Error records its text and
breaks without resetting it, so processing continues to the next record
only when no ConnectionLost retry preceded the business failure on that
record — with at least one preceding retry the run aborts with
RuntimeError; success after up to two retries is recorded normally, and
three straight connection losses abort the run fatally. -/
theorem C2_amended (k : Nat) (hk : k < MAX_RECOVERY_ATTEMPTS) (m : Str) :
    (fb03_process_record (List.replicate k .connLost ++ [.success])
        = .recorded "Document updated.".data (recoveryActsFb03 k))
    ∧ (fb03_process_record (List.replicate k .connLost ++ [.containedWarning m])
        = if k = 0 then .recorded m [] else .fatalRuntime)
    ∧ (fb03_process_record (List.replicate k .connLost ++ [.docError m])
        = if k = 0 then .recorded m [] else .fatalRuntime)
    ∧ (∀ t, fb03_process_record (List.replicate MAX_RECOVERY_ATTEMPTS .connLost ++ t)
        = .fatalRuntime) := by
  have hcases : k = 0 ∨ k = 1 ∨ k = 2 := by
    rw [MAX_RECOVERY_ATTEMPTS] at hk; omega
  refine ⟨?_, ?_, ?_, ?_⟩
  · rcases hcases with rfl | rfl | rfl <;>
      simp [fb03_process_record, fb03_record_loop, recoveryActsFb03,
        MAX_RECOVERY_ATTEMPTS, List.replicate]
  · rcases hcases with rfl | rfl | rfl <;>
      simp [fb03_process_record, fb03_record_loop,
        MAX_RECOVERY_ATTEMPTS, List.replicate]
  · rcases hcases with rfl | rfl | rfl <;>
      simp [fb03_process_record, fb03_record_loop,
        MAX_RECOVERY_ATTEMPTS, List.replicate]
  · intro t
    have hex := fb03_record_loop_exhausted 3 (by decide)
    simp [fb03_process_record, fb03_record_loop,
      MAX_RECOVERY_ATTEMPTS, List.replicate, hex]

/-- Claim C2 (witness): two connection losses then success — the record
is marked updated after two reconnect-and-restart recoveries. -/
theorem C2_witness :
    fb03_process_record [.connLost, .connLost, .success]
      = .recorded "Document updated.".data
          [StageAct.connectSap, StageAct.startFb03,
            StageAct.connectSap, StageAct.startFb03] := by
  have h := (C2_amended 2 (by decide) "".data).1
  simpa [recoveryActsFb03, List.replicate] using h

/-- Result of one va03.get_creditnote_number call, by the except clauses
of the controller loop that catch it. -/
inductive Va03CallResult
  | success (creditNote : Nat)
  | connLost
  | procWarning (msg : Str)
  | procError (msg : Str)
  | notFound (msg : Str)
deriving DecidableEq

/-- How the credit-note retry loop ends for one record, carrying the
per-record state it mutates along the way: the last message written (if
any) and the last Credit_Note assignment (if any; some none is the
explicit None written on a NotFound warning). -/
inductive Va03LoopExit
  | exited (nAttempts : Nat) (msg : Option Str) (credit : Option (Option Nat))
  | exhausted (nAttempts : Nat) (msg : Option Str) (credit : Option (Option Nat))
  | noTrace
deriving DecidableEq

/-- controller.assign_credit_note_numbers, inner while loop for one
order.  Faithful to the source: the CreditNoteNotFoundWarning clause
records the warning text and writes None into Credit_Note but has no
break, so the loop immediately re-invokes the lookup with the counter
unchanged; warnings and errors of the other kinds break; success stores
the credit note, resets the counter and breaks. -/
def va03_record_loop :
    Nat → Option Str → Option (Option Nat) → List Va03CallResult → Va03LoopExit
  | n, msg, credit, [] =>
      if MAX_RECOVERY_ATTEMPTS ≤ n then .exhausted n msg credit else .noTrace
  | n, msg, credit, r :: rest =>
      if MAX_RECOVERY_ATTEMPTS ≤ n then .exhausted n msg credit
      else
        match r with
        | .connLost => va03_record_loop (n + 1) msg credit rest
        | .procError m => .exited n (some m) credit
        | .procWarning m => .exited n (some m) credit
        | .notFound m => va03_record_loop n (some m) (some none) rest
        | .success cn => .exited 0 msg (some (some cn))

/-- Outcome of the end-of-stage check of assign_credit_note_numbers. -/
inductive AssignOutcome
  | ok (recs : List DocRecord)
  | fatal (msg : Str)
deriving DecidableEq

/-- End of controller.assign_credit_note_numbers: after the order loop,
if the Credit_Note column is entirely NA the stage raises RuntimeError
instead of returning the enriched rows. -/
def finish_assign (recs : List DocRecord) : AssignOutcome :=
  if recs.all fun r => r.creditNote.isNone then
    .fatal "None of the processed orders was found in VA03!".data
  else .ok recs

/-- Claim C3 (counterexample): an order whose lookup keeps raising the
NotFound warning never leaves the retry loop — after seven straight
NotFound outcomes the loop is still running (the clause records the text
and clears Credit_Note but has no break), so processing never continues
to the next record; and the end-of-stage check on a batch whose
Credit_Note column is entirely NA raises RuntimeError instead of
proceeding to the annotation stage. -/
theorem C3_counterexample :
    va03_record_loop 0 none none
        (List.replicate 7 (.notFound "The credit note does not exist yet in the system.".data))
      = .noTrace
    ∧ finish_assign [⟨5012233445, true, none, "".data⟩]
        = .fatal "None of the processed orders was found in VA03!".data := by
  decide

/-- Claim C3 (amended): a credit-note lookup that finds no matching node
raises the NotFound warning (not an error) and the controller records the
warning text and writes None into Credit_Note, but the clause has no
break: however many consecutive NotFound outcomes the driver returns, the
loop is still awaiting another call for the same record, so processing
does not continue to the next record; moreover a completed run in which
no order resolved to a credit note aborts with RuntimeError before the
annotation stage. -/
theorem C3_amended (n : Nat) (m : Str) (msg0 : Option Str)
    (cr0 : Option (Option Nat)) :
    va03_record_loop 0 msg0 cr0 (List.replicate n (.notFound m)) = .noTrace
    ∧ (∀ recs : List DocRecord,
        (recs.all fun r => r.creditNote.isNone) = true →
        finish_assign recs
          = .fatal "None of the processed orders was found in VA03!".data) := by
  constructor
  · induction n generalizing msg0 cr0 with
    | zero => rfl
    | succ n ih =>
        rw [List.replicate]
        exact ih (some m) (some none)
  · intro recs h
    rw [finish_assign, if_pos h]

/-- Claim C3 (witness): the amended theorem at five NotFound outcomes and
a two-row batch with no resolved credit note. -/
theorem C3_witness :
    va03_record_loop 0 none none (List.replicate 5 (.notFound "x".data)) = .noTrace
    ∧ finish_assign [⟨544411698, false, none, "".data⟩, ⟨5012233445, true, none, "".data⟩]
        = .fatal "None of the processed orders was found in VA03!".data :=
  ⟨(C3_amended 5 "x".data none none).1,
    (C3_amended 5 "x".data none none).2 _ (by decide)⟩

mutual
/-- A node of the SAP tree widget read by va03: the node label and the
credit-note reference number fetched when the node is double-clicked
(va03._get_reference_number, abstracted as a stored value). -/
inductive STree where
  | node (label : Str) (refNum : Nat) (children : SForest)
/-- A node's sibling chain, as walked via tree.GetNextNodeKey. -/
inductive SForest where
  | nil
  | cons (t : STree) (rest : SForest)
end

mutual
/-- va03._get_node_value restricted to one visited node: if the marker
substring occurs in the node label, return the node's reference number,
else descend into the node's children. -/
def node_search (substr : Str) : STree → Option Nat
  | STree.node lbl ref cs =>
      if substr <:+: lbl then some ref else forest_search substr cs
/-- va03._get_node_value on a node followed by its pending siblings: the
source recursion "visit the node, then its first child's subtree, then
the next sibling" with the sibling chain made explicit. -/
def forest_search (substr : Str) : SForest → Option Nat
  | SForest.nil => none
  | SForest.cons t rest =>
      match node_search substr t with
      | some v => some v
      | none => forest_search substr rest
end

mutual
/-- Pre-order, leftmost-first listing of the (label, value) pairs of one
node's subtree. -/
def preorder_node : STree → List (Str × Nat)
  | STree.node lbl ref cs => (lbl, ref) :: preorder_forest cs
/-- Pre-order, leftmost-first listing of a sibling chain's subtrees. -/
def preorder_forest : SForest → List (Str × Nat)
  | SForest.nil => []
  | SForest.cons t rest => preorder_node t ++ preorder_forest rest
end

mutual
/-- Searching one node's subtree returns the value of the first pre-order
node whose label contains the marker. -/
theorem node_search_eq (s : Str) (t : STree) :
    node_search s t
      = ((preorder_node t).find? fun x => decide (s <:+: x.1)).map Prod.snd := by
  match t with
  | STree.node lbl ref cs =>
      rw [node_search, preorder_node, List.find?_cons]
      by_cases h : s <:+: lbl
      · simp [h]
      · simp [h]
        exact forest_search_eq s cs
/-- Searching a sibling chain returns the value of the first pre-order
node whose label contains the marker. -/
theorem forest_search_eq (s : Str) (f : SForest) :
    forest_search s f
      = ((preorder_forest f).find? fun x => decide (s <:+: x.1)).map Prod.snd := by
  match f with
  | SForest.nil => rfl
  | SForest.cons t rest =>
      rw [forest_search, preorder_forest, List.find?_append]
      rw [node_search_eq s t, forest_search_eq s rest]
      cases hX : (preorder_node t).find? fun x => decide (s <:+: x.1) <;> simp [hX]
end

/-- The spec scenario tree: the only label containing the marker sits at
depth 2 under the root's second child; the first child carries its own
subtree with no match. -/
def demoForest : SForest :=
  .cons (.node "Overview".data 1
    (.cons (.node "Sales order 5012233445".data 2
        (.cons (.node "Delivery 800123456".data 3 .nil) .nil))
      (.cons (.node "Documents".data 4
          (.cons (.node "Accounting document 0123456789".data 123456789 .nil) .nil))
        .nil)))
    .nil

/-- Claim C7: the credit-note tree search visits nodes in deterministic
pre-order, leftmost-first — it returns the value of the first node in
pre-order whose label contains the marker substring — and on the scenario
tree whose only match is at depth 2 under the second child it finds
exactly that node, the first child's whole subtree having been exhausted
first. -/
theorem C7_preorder_first_match (s : Str) (f : SForest) :
    forest_search s f
      = ((preorder_forest f).find? fun x => decide (s <:+: x.1)).map Prod.snd
    ∧ forest_search "Accounting document".data demoForest = some 123456789 :=
  ⟨forest_search_eq s f, by decide⟩

/-- One row of the QM02 task grid together with the dialog feedback that
pressing its completion control will produce: whether a "Status check
error" popup appears, and how many other (confirmable) popups follow. -/
structure Qm02Task where
  num : Nat
  completionDate : Str
  statusCheckOnComplete : Bool
  popupsAfter : Nat
deriving DecidableEq

/-- Remote-UI steps performed while completing a notification. -/
inductive Qm02Act
  | pressTaskComplete (n : Nat)
  | declineDialog
  | confirmDialog
  | pressOverallComplete
  | pressF12
deriving DecidableEq

/-- qm02._complete_task: select the task row and press its completion
control; a "Status check error" popup is declined and the procedure
simply returns — no exception, the task loop moves on; any other popups
are confirmed in a loop. -/
def complete_task (t : Qm02Task) : List Qm02Act :=
  if t.statusCheckOnComplete then
    [.pressTaskComplete t.num, .declineDialog]
  else
    .pressTaskComplete t.num :: List.replicate t.popupsAfter .confirmDialog

/-- Outcome of qm02._complete: normal return, or the
NotificationCompletionError("Status check error!") raised when the
overall completion control itself yields the status-check popup. -/
inductive Qm02CompleteResult
  | ok
  | statusCheckError
deriving DecidableEq

/-- qm02._complete: press the completion control of every open task
(blank completion-date cell) in grid order, then press the overall
completion control; a "Status check error" at that final press is
declined, backed out of with F12 (declining one more popup if present),
and raised as NotificationCompletionError. -/
def qm02_complete (tasks : List Qm02Task) (overallStatusCheckError : Bool)
    (popupAfterBack : Bool) : Qm02CompleteResult × List Qm02Act :=
  let taskActs :=
    ((tasks.filter fun t => t.completionDate.isEmpty).map complete_task).flatten
  if overallStatusCheckError then
    (.statusCheckError,
      taskActs ++ [.pressOverallComplete, .declineDialog, .pressF12]
        ++ (if popupAfterBack then [.declineDialog] else []))
  else
    (.ok, taskActs ++ [.pressOverallComplete])

/-- Claim C9: a "Status check error" popup raised by completing an
individual task is declined and the loop moves on — the task press
sequence is press-then-decline with no failure, and every open task still
gets its completion control pressed — whereas the same popup raised by
the overall completion control makes the whole operation fail with
NotificationCompletionError, and it fails only then. -/
theorem C9_status_check_asymmetry (tasks : List Qm02Task) (ovl back : Bool)
    (t : Qm02Task) :
    (t.statusCheckOnComplete = true →
      complete_task t = [.pressTaskComplete t.num, .declineDialog])
    ∧ (∀ u ∈ tasks, u.completionDate.isEmpty = true →
        Qm02Act.pressTaskComplete u.num ∈ (qm02_complete tasks ovl back).2)
    ∧ ((qm02_complete tasks ovl back).1 = .statusCheckError ↔ ovl = true) := by
  refine ⟨?_, ?_, ?_⟩
  · intro h; rw [complete_task, if_pos h]
  · intro u hu hblank
    have hpress : Qm02Act.pressTaskComplete u.num ∈ complete_task u := by
      rw [complete_task]
      by_cases h : u.statusCheckOnComplete = true
      · rw [if_pos h]; simp
      · rw [if_neg h]; simp
    have hjoin : Qm02Act.pressTaskComplete u.num
        ∈ ((tasks.filter fun x => x.completionDate.isEmpty).map complete_task).flatten := by
      rw [List.mem_flatten]
      exact ⟨complete_task u,
        List.mem_map_of_mem complete_task (List.mem_filter.mpr ⟨hu, hblank⟩), hpress⟩
    rw [qm02_complete]
    cases ovl <;> simp [hjoin]
  · cases ovl <;> simp [qm02_complete]

/-- Claim C9 (witness): one open task whose completion press raises the
status-check popup, and an overall completion press that raises it too:
the task press is declined without failing and the operation fails only
at the final overall press. -/
theorem C9_witness :
    complete_task ⟨71, "".data, true, 0⟩
      = [.pressTaskComplete 71, .declineDialog]
    ∧ Qm02Act.pressTaskComplete 71
        ∈ (qm02_complete [⟨71, "".data, true, 0⟩] true false).2
    ∧ (qm02_complete [⟨71, "".data, true, 0⟩] true false).1
        = .statusCheckError :=
  ⟨(C9_status_check_asymmetry [⟨71, "".data, true, 0⟩] true false
      ⟨71, "".data, true, 0⟩).1 rfl,
    (C9_status_check_asymmetry [⟨71, "".data, true, 0⟩] true false
      ⟨71, "".data, true, 0⟩).2.1 ⟨71, "".data, true, 0⟩ (by simp) (by decide),
    ((C9_status_check_asymmetry [⟨71, "".data, true, 0⟩] true false
      ⟨71, "".data, true, 0⟩).2.2).mpr rfl⟩

end AccDoc
